import Mathlib

/-!
Shallow embedding of the code-execution backend of the Collab-Coding-App
repository (`src/c-runner/c-runner-backend.js`), together with theorems
settling the frozen claims about its specification.

The JavaScript source is embedded over `List Char` / `String`:
* the per-language `detectDependencies` regex pipelines are translated into
  explicit scanners that implement the exact greedy-with-backtracking
  semantics of the concrete regexes used in the source (justified case by
  case in the comments);
* `executeWithTimeout` is modelled against an `Oracle` describing the
  outcome of each external command, mirroring Node's `exec` callback
  `(error, stdout, stderr)` and JavaScript's falsiness on empty strings;
* `executeCode` and `handleCodeExecution` are transcribed control-flow
  faithfully, including which thrown values are `Error` objects (whose
  `.message` is a string) and which are plain rejected strings (whose
  `.message` is `undefined`);
* filesystem effects are tracked as lists of created file paths and the
  final `filesToCleanup` list removed in the `finally` block.
-/

namespace CollabRunner

/-! ### Character classes (JS regex classes, ASCII fragment)

`\w` in JS is `[A-Za-z0-9_]`; `\s` covers ASCII whitespace (the embedding
restricts attention to space, tab, CR, LF, which are the whitespace
characters occurring in source-code inputs). -/

def isWordChar (c : Char) : Bool :=
  c.isAlpha || c.isDigit || c = '_'

def isSpaceChar (c : Char) : Bool :=
  c = ' ' || c = '\t' || c = '\n' || c = '\r'

/-- Class `[\w\d_\.]` of the Python module-name capture. -/
def isPyModChar (c : Char) : Bool :=
  isWordChar c || c = '.'

/-- Class `[\w\d_\.,\s*]` of the trailing part of the Python import regex. -/
def isPyTailChar (c : Char) : Bool :=
  isWordChar c || c = '.' || c = ',' || isSpaceChar c || c = '*'

/-- Class `[@\w\d\-\/\.]` of the JavaScript package-name capture. -/
def isJsPkgChar (c : Char) : Bool :=
  c = '@' || isWordChar c || c = '-' || c = '/' || c = '.'

/-- Class `[a-zA-Z0-9_.]` of the Java import capture. -/
def isJavaPkgChar (c : Char) : Bool :=
  c.isAlpha || c.isDigit || c = '_' || c = '.'

def isQuote (c : Char) : Bool :=
  c = '\'' || c = '"'

/-! ### Small list utilities -/

/-- If `pre` is a prefix of `l`, return the remainder, else `none`
(used for literal fragments of a regex). -/
def dropLit : List Char → List Char → Option (List Char)
  | [], l => some l
  | _ :: _, [] => none
  | p :: ps, c :: cs => if c = p then dropLit ps cs else none

/-- Maximal run of characters satisfying `p` (greedy class repetition),
returning the run and the remainder. -/
def spanRun (p : Char → Bool) (l : List Char) : List Char × List Char :=
  (l.takeWhile p, l.dropWhile p)

/-- Does `s` contain `pat` as a contiguous substring?  Implements
JavaScript's `String.prototype.includes`. -/
def listHasSub (pat : List Char) : List Char → Bool
  | [] => pat.isEmpty
  | c :: cs => pat.isPrefixOf (c :: cs) || listHasSub pat cs

def strIncludes (s pat : String) : Bool :=
  listHasSub pat.data s.data

/-- JavaScript's `a || b` on strings: empty string is falsy. -/
def jsOr (a b : String) : String :=
  if a = "" then b else a

/-- `s.startsWith(c)` for a one-character prefix, computed on the
character list so that the kernel can evaluate it. -/
def headIs (c : Char) (s : String) : Bool :=
  match s.data with
  | [] => false
  | c2 :: _ => c2 == c

/-- `[...new Set(l)]`: deduplication keeping first occurrences, in
insertion order, as a JavaScript `Set` iterates.  Structural recursion on
a fuel argument so that the kernel can evaluate it; fuel equal to the list
length always suffices since `filter` does not lengthen a list. -/
def jsSetDedupAux : Nat → List String → List String
  | 0, _ => []
  | _ + 1, [] => []
  | fuel + 1, x :: xs => x :: jsSetDedupAux fuel (xs.filter (fun y => !(y == x)))

def jsSetDedup (l : List String) : List String :=
  jsSetDedupAux l.length l

/-! ### Standard-library allowlists (transcribed from the source) -/

/-- `stdLibs` of `languageConfigs.python.detectDependencies`. -/
def pyStdLibs : List String :=
  ["os", "sys", "math", "random", "time", "datetime", "string", "re",
   "json", "collections", "itertools", "functools", "typing", "pathlib",
   "subprocess", "threading", "multiprocessing", "asyncio", "urllib",
   "http", "socket", "email", "xml", "html", "csv", "sqlite3", "pickle",
   "copy", "hashlib", "logging", "argparse", "configparser", "unittest",
   "decimal", "statistics", "uuid", "base64", "contextlib", "dataclasses",
   "enum", "io", "glob", "shutil", "inspect", "ast", "traceback", "gc",
   "weakref", "types", "warnings", "platform", "tempfile", "zipfile",
   "tarfile", "gzip", "bz2", "lzma", "struct", "array", "heapq", "bisect",
   "calendar", "textwrap", "gettext", "locale", "signal", "mmap", "queue",
   "sched", "select", "selectors", "ssl", "ftplib", "poplib", "imaplib",
   "nntplib", "smtplib", "telnetlib", "hmac", "secrets", "urllib3", "getpass",
   "curses", "concurrent", "venv", "doctest", "trace", "numbers", "abc",
   "fnmatch", "fileinput", "shelve", "stat", "asyncore", "asynchat",
   "webbrowser", "pdb", "distutils", "setuptools"]

/-- `stdModules` of `languageConfigs.javascript.detectDependencies`. -/
def jsStdModules : List String :=
  ["fs", "path", "http", "https", "os", "crypto", "events", "stream",
   "buffer", "util", "url", "querystring", "zlib", "readline", "net",
   "dgram", "dns", "tls", "cluster", "child_process", "worker_threads",
   "assert", "console", "process", "timers", "perf_hooks", "v8",
   "async_hooks", "module"]

/-- `stdPackages` of `languageConfigs.java.detectDependencies`.  Note the
entries are dotted two-segment names while the filtered value is the first
dot-segment, exactly as in the source. -/
def javaStdPackages : List String :=
  ["java.lang", "java.io", "java.util", "java.net", "java.text", "java.math",
   "java.time", "java.sql", "java.security", "java.nio", "java.awt",
   "javax.swing", "java.beans", "java.rmi", "javax.crypto", "javax.imageio",
   "javax.sound", "javax.xml", "javax.sql", "javax.naming", "javax.management",
   "javax.script", "javax.tools", "javax.annotation", "javax.print",
   "jakarta.servlet", "jakarta.ejb", "jakarta.persistence", "jakarta.ws.rs",
   "jakarta.mail", "jakarta.json", "jakarta.validation", "jakarta.batch",
   "jakarta.faces", "jakarta.enterprise", "jakarta.interceptor",
   "javafx.application", "javafx.scene", "javafx.stage", "javafx.fxml",
   "javafx.controls", "javafx.graphics", "javafx.media", "javafx.web",
   "org.junit", "org.springframework", "com.google.gson", "com.fasterxml.jackson"]

/-- `stdHeaders` of `languageConfigs.cpp.detectDependencies`. -/
def cppStdHeaders : List String :=
  ["iostream", "string", "vector", "map", "set", "queue", "stack", "deque",
   "list", "array", "algorithm", "memory", "functional", "chrono", "thread",
   "mutex", "condition_variable", "future", "random", "regex", "filesystem",
   "iterator", "numeric", "utility", "tuple", "type_traits", "exception",
   "stdexcept", "cassert", "cstdlib", "cstring", "cctype", "cmath", "ctime",
   "cstdio", "fstream", "sstream", "iomanip", "optional", "variant", "any",
   "compare", "version", "source_location", "complex", "ratio", "cfloat",
   "climits", "numbers", "valarray", "bit", "cstddef", "cwchar", "cuchar",
   "cwctype", "clocale", "csetjmp", "csignal", "shared_mutex", "atomic",
   "barrier", "latch", "semaphore", "system_error", "charconv", "format",
   "memory_resource", "execution", "ranges", "span", "coroutine", "concepts",
   "string_view", "u8string_view", "u16string_view", "u32string_view",
   "syncstream", "stacktrace", "expected", "generator", "mdspan", "print",
   "spanstream", "stdfloat"]

/-- `stdHeaders` of `languageConfigs.c.detectDependencies`. -/
def cStdHeaders : List String :=
  ["stdio.h", "stdlib.h", "string.h", "math.h", "time.h", "ctype.h",
   "stdbool.h", "stdint.h", "float.h", "limits.h", "assert.h", "errno.h",
   "locale.h", "setjmp.h", "signal.h", "stdarg.h", "stddef.h", "sys/types.h",
   "unistd.h"]

/-! ### Python dependency detection

Source regex (flags `gm`):
`^(?:import|from)\s+([\w\d_\.]+)(?:\s+import\s+[\w\d_\.,\s*]+)?`.

Greedy/backtracking analysis used by the embedding:
* `^` with `m` restricts match starts to line-start positions;
* `\s+` before the capture and `([\w\d_\.]+)` are forced maximal runs
  (their classes are disjoint from what follows them);
* in the optional tail, `\s+` before the literal `import` is a forced
  maximal run (whitespace cannot begin the literal);
* in `\s+[\w\d_\.,\s*]+` after the literal, whitespace is contained in the
  class, so the pair consumes the maximal whitespace run `w` followed by
  the maximal class run `cls`, succeeding iff `w` is nonempty and either
  `cls` is nonempty or `w` has length ≥ 2 (one whitespace character is
  ceded to the class by backtracking);
* because the class contains `\s`, a match can swallow following lines —
  consecutive `import` lines collapse into one match.
After the global scan, the source re-matches each matched text with
`^from\s+([\w\d_\.]+)|^import\s+([\w\d_\.]+)` and keeps
`(match[1] || match[2]).split(".")[0]`. -/

/-- Anchored attempt of the Python import regex at a line-start position;
returns the full matched text and the remainder. -/
def pyTryMatch (l : List Char) : Option (List Char × List Char) :=
  let kw? : Option (List Char × List Char) :=
    match dropLit "import".data l with
    | some r => some ("import".data, r)
    | none =>
      match dropLit "from".data l with
      | some r => some ("from".data, r)
      | none => none
  match kw? with
  | none => none
  | some (kw, r1) =>
    let (w1, r2) := spanRun isSpaceChar r1
    if w1.isEmpty then none else
    let (cap, r3) := spanRun isPyModChar r2
    if cap.isEmpty then none else
    let (w2, r4) := spanRun isSpaceChar r3
    let tail? : Option (List Char × List Char) :=
      if w2.isEmpty then none else
      match dropLit "import".data r4 with
      | none => none
      | some r5 =>
        let (w3, r6) := spanRun isSpaceChar r5
        let (cls, r7) := spanRun isPyTailChar r6
        if w3.isEmpty then none
        else if cls.isEmpty && decide (w3.length < 2) then none
        else some (w2 ++ "import".data ++ w3 ++ cls, r7)
    match tail? with
    | some (t, rest) => some (kw ++ w1 ++ cap ++ t, rest)
    | none => some (kw ++ w1 ++ cap, r3)

/-- Global scan with the `m` flag: attempts the anchored match at every
line-start position, resuming after each match (`lastIndex` semantics). -/
def pyScanAux : Nat → List Char → Bool → List (List Char)
  | 0, _, _ => []
  | _ + 1, [], _ => []
  | fuel + 1, c :: rest, atStart =>
    if atStart then
      match pyTryMatch (c :: rest) with
      | some (txt, rest2) =>
        txt :: pyScanAux fuel rest2 (txt.getLast? == some '\n')
      | none => pyScanAux fuel rest (c == '\n')
    else pyScanAux fuel rest (c == '\n')

/-- One alternative `^LIT\s+([\w\d_\.]+)` of the per-match re-extraction. -/
def pyInnerAlt (lit : String) (txt : List Char) : Option (List Char) :=
  match dropLit lit.data txt with
  | none => none
  | some r =>
    let (w, r2) := spanRun isSpaceChar r
    if w.isEmpty then none else
    let (cap, _) := spanRun isPyModChar r2
    if cap.isEmpty then none else some cap

/-- `imp.match(/^from\s+([\w\d_\.]+)|^import\s+([\w\d_\.]+)/)` followed by
`match[1] || match[2]`; the default `[]` is unreachable on scanner
outputs, which always begin with a keyword, whitespace and a module
character. -/
def pyExtractModule (txt : List Char) : List Char :=
  match pyInnerAlt "from" txt with
  | some cap => cap
  | none =>
    match pyInnerAlt "import" txt with
    | some cap => cap
    | none => []

/-- `.split(".")[0]`. -/
def splitDotHead (l : List Char) : List Char :=
  l.takeWhile (fun c => !(c == '.'))

/-- `languageConfigs.python.detectDependencies`. -/
def pythonDetectDependencies (code : String) : List String :=
  let imports := pyScanAux code.data.length code.data true
  let packages := imports.map (fun t => String.mk (splitDotHead (pyExtractModule t)))
  (jsSetDedup packages).filter (fun p => !(pyStdLibs.contains p))

/-! ### Generic global regex scan

`String.prototype.match` with the `g` flag: attempt the pattern at each
index from left to right, emitting each match and resuming at its end.
All patterns embedded here consume at least one character, so fuel equal
to the input length suffices. -/

def scanG {α : Type} (tryM : List Char → Option (α × List Char)) :
    Nat → List Char → List α
  | 0, _ => []
  | _ + 1, [] => []
  | fuel + 1, c :: rest =>
    match tryM (c :: rest) with
    | some (x, rest2) => x :: scanG tryM fuel rest2
    | none => scanG tryM fuel rest

/-- `String.prototype.match` without the `g` flag: first match only. -/
def scanFirst {α : Type} (tryM : List Char → Option α) : List Char → Option α
  | [] => none
  | c :: rest =>
    match tryM (c :: rest) with
    | some x => some x
    | none => scanFirst tryM rest

/-! ### JavaScript dependency detection

Source regexes (all flags `gm`, no anchors, so `m` is inert):
1. `(?:require|import)\s*\(?['"]([@\w\d\-\/\.]+)['"]\)?`
2. `(?:import\s*{[^}]+}\s*from\s*['"])([^'"]+)`
3. `(?:const|let|var)\s*{\s*[^}]+}\s*=\s*require\(['"]([^'"]+)['"]\)`
The full match texts of the three scans are concatenated and each text is
re-matched against `['"]([^'"]+)['"]` to pull out the first quoted
fragment (`null` results are filtered).  All greedy runs below are
forced because each class is disjoint from the character that must follow
it; in regex 3 `\s*[^}]+` merges into one maximal non-`}` run because
whitespace belongs to `[^}]`. -/

/-- `['"]([@\w\d\-\/\.]+)['"]\)?` — quoted package name with optional
closing parenthesis; returns consumed text and remainder. -/
def jsTryQuotedPkg (l : List Char) : Option (List Char × List Char) :=
  match l with
  | [] => none
  | q :: r =>
    if isQuote q then
      let (run, r2) := spanRun isJsPkgChar r
      if run.isEmpty then none else
      match r2 with
      | [] => none
      | q2 :: r3 =>
        if isQuote q2 then
          match r3 with
          | ')' :: r4 => some (q :: (run ++ [q2, ')']), r4)
          | _ => some (q :: (run ++ [q2]), r3)
        else none
    else none

/-- Regex 1 attempted at one position. -/
def jsTryMatchA (l : List Char) : Option (List Char × List Char) :=
  let kw? : Option (List Char × List Char) :=
    match dropLit "require".data l with
    | some r => some ("require".data, r)
    | none =>
      match dropLit "import".data l with
      | some r => some ("import".data, r)
      | none => none
  match kw? with
  | none => none
  | some (kw, r1) =>
    let (w, r2) := spanRun isSpaceChar r1
    match r2 with
    | '(' :: r3 =>
      match jsTryQuotedPkg r3 with
      | some (t, rest) => some (kw ++ w ++ '(' :: t, rest)
      | none => none
    | _ =>
      match jsTryQuotedPkg r2 with
      | some (t, rest) => some (kw ++ w ++ t, rest)
      | none => none

/-- Regex 2 attempted at one position.  The matched text ends with the
capture `([^'"]+)` and does not include a closing quote. -/
def jsTryMatchB (l : List Char) : Option (List Char × List Char) :=
  match dropLit "import".data l with
  | none => none
  | some r1 =>
    let (w1, r2) := spanRun isSpaceChar r1
    match r2 with
    | '{' :: r3 =>
      let (body, r4) := spanRun (fun c => !(c == '}')) r3
      if body.isEmpty then none else
      match r4 with
      | '}' :: r5 =>
        let (w2, r6) := spanRun isSpaceChar r5
        match dropLit "from".data r6 with
        | none => none
        | some r7 =>
          let (w3, r8) := spanRun isSpaceChar r7
          match r8 with
          | q :: r9 =>
            if isQuote q then
              let (cap, r10) := spanRun (fun c => !(isQuote c)) r9
              if cap.isEmpty then none else
              some ("import".data ++ w1 ++ '{' :: (body ++ '}' :: (w2 ++
                "from".data ++ w3 ++ q :: cap)), r10)
            else none
          | [] => none
      | _ => none
    | _ => none

/-- Regex 3 attempted at one position. -/
def jsTryMatchC (l : List Char) : Option (List Char × List Char) :=
  let kw? : Option (List Char × List Char) :=
    match dropLit "const".data l with
    | some r => some ("const".data, r)
    | none =>
      match dropLit "let".data l with
      | some r => some ("let".data, r)
      | none =>
        match dropLit "var".data l with
        | some r => some ("var".data, r)
        | none => none
  match kw? with
  | none => none
  | some (kw, r1) =>
    let (w1, r2) := spanRun isSpaceChar r1
    match r2 with
    | '{' :: r3 =>
      let (body, r4) := spanRun (fun c => !(c == '}')) r3
      if body.isEmpty then none else
      match r4 with
      | '}' :: r5 =>
        let (w2, r6) := spanRun isSpaceChar r5
        match r6 with
        | '=' :: r7 =>
          let (w3, r8) := spanRun isSpaceChar r7
          match dropLit "require(".data r8 with
          | none => none
          | some r9 =>
            match r9 with
            | q :: r10 =>
              if isQuote q then
                let (cap, r11) := spanRun (fun c => !(isQuote c)) r10
                if cap.isEmpty then none else
                match r11 with
                | q2 :: ')' :: r12 =>
                  if isQuote q2 then
                    some (kw ++ w1 ++ '{' :: (body ++ '}' :: (w2 ++ '=' :: (w3 ++
                      "require(".data ++ q :: (cap ++ [q2, ')'])))), r12)
                  else none
                | _ => none
              else none
            | [] => none
        | _ => none
      | _ => none
    | _ => none

/-- `imp.match(/['"]([^'"]+)['"]/)` — leftmost quoted fragment of a match
text, or `none` when the text has no properly closed quoted fragment. -/
def jsInnerQuoted : List Char → Option (List Char)
  | [] => none
  | c :: r =>
    if isQuote c then
      let (run, r2) := spanRun (fun c2 => !(isQuote c2)) r
      if run.isEmpty then jsInnerQuoted r
      else
        match r2 with
        | _ :: _ => some run
        | [] => jsInnerQuoted r
    else jsInnerQuoted r

/-- `languageConfigs.javascript.detectDependencies`. -/
def javascriptDetectDependencies (code : String) : List String :=
  let n := code.data.length
  let imports := scanG jsTryMatchA n code.data ++ scanG jsTryMatchB n code.data ++
    scanG jsTryMatchC n code.data
  let mapped := imports.map (fun t => (jsInnerQuoted t).map String.mk)
  let filtered := mapped.filter (fun o =>
    match o with
    | some p => !(jsStdModules.contains p) && !(headIs '.' p)
    | none => false)
  let scopedPkgs := filtered.map (fun o =>
    match o with
    | some p =>
      if headIs '@' p then p
      else String.mk (p.data.takeWhile (fun c => !(c == '/')))
    | none => "")
  jsSetDedup scopedPkgs

/-! ### Java class-name detection and dependency detection -/

/-- `public\s+class\s+(\w+)` attempted at one position. -/
def javaTryClass (l : List Char) : Option (List Char) :=
  match dropLit "public".data l with
  | none => none
  | some r1 =>
    let (w1, r2) := spanRun isSpaceChar r1
    if w1.isEmpty then none else
    match dropLit "class".data r2 with
    | none => none
    | some r3 =>
      let (w2, r4) := spanRun isSpaceChar r3
      if w2.isEmpty then none else
      let (cap, _) := spanRun isWordChar r4
      if cap.isEmpty then none else some cap

/-- `languageConfigs.java.detectClassName` without its `throw`: `none`
models `classMatch === null` (the caller raises the error message). -/
def detectClassName (code : String) : Option String :=
  (scanFirst javaTryClass code.data).map String.mk

/-- `import\s+([a-zA-Z0-9_.]+)\s*;` attempted at one position.  Returns
the capture together with the `\s*` run standing before the semicolon:
the source re-matches each matched text against
`/import\s+([a-zA-Z0-9_\.]+);/` (no `\s*` before `;`), which succeeds on
the text iff that run is empty, and yields `null` — making the
subsequent `[1]` access throw — otherwise. -/
def javaTryImport (l : List Char) : Option ((List Char × List Char) × List Char) :=
  match dropLit "import".data l with
  | none => none
  | some r1 =>
    let (w1, r2) := spanRun isSpaceChar r1
    if w1.isEmpty then none else
    let (cap, r3) := spanRun isJavaPkgChar r2
    if cap.isEmpty then none else
    let (w2, r4) := spanRun isSpaceChar r3
    match r4 with
    | ';' :: r5 => some ((cap, w2), r5)
    | _ => none

/-- `languageConfigs.java.detectDependencies`.  The error case models the
`TypeError` thrown by `imp.match(...)[1]` when the re-match is `null`. -/
def javaDetectDependencies (code : String) : Except String (List String) :=
  let found := scanG javaTryImport code.data.length code.data
  if found.any (fun pr => !(pr.2.isEmpty)) then
    Except.error "Cannot read properties of null (reading '1')"
  else
    Except.ok (((found.map (fun pr => String.mk (splitDotHead pr.1))).filter
      (fun p => !(javaStdPackages.contains p))))

/-! ### C and C++ header detection -/

/-- `#include\s*<([^>]+)>` attempted at one position (C++); the source
re-matches each text against `/<([^>]+)>/`, which returns the same
capture, so the capture is returned directly. -/
def cppTryInclude (l : List Char) : Option (List Char × List Char) :=
  match dropLit "#include".data l with
  | none => none
  | some r1 =>
    let (_, r2) := spanRun isSpaceChar r1
    match r2 with
    | '<' :: r3 =>
      let (cap, r4) := spanRun (fun c => !(c == '>')) r3
      if cap.isEmpty then none else
      match r4 with
      | '>' :: r5 => some (cap, r5)
      | _ => none
    | _ => none

/-- `#include\s*[<"]([^>"]+)[>"]` attempted at one position (C); opening
and closing delimiters are matched independently, as in the source. -/
def cTryInclude (l : List Char) : Option (List Char × List Char) :=
  match dropLit "#include".data l with
  | none => none
  | some r1 =>
    let (_, r2) := spanRun isSpaceChar r1
    match r2 with
    | q :: r3 =>
      if q = '<' || q = '"' then
        let (cap, r4) := spanRun (fun c => !(c == '>') && !(c == '"')) r3
        if cap.isEmpty then none else
        match r4 with
        | q2 :: r5 => if q2 = '>' || q2 = '"' then some (cap, r5) else none
        | [] => none
      else none
    | [] => none

/-- `languageConfigs.cpp.detectDependencies`: throws on any header not in
the allowlist, otherwise returns the empty dependency list. -/
def cppDetectDependencies (code : String) : Except String (List String) :=
  let includes := scanG cppTryInclude code.data.length code.data
  let unsupported := (includes.map String.mk).filter
    (fun h => !(cppStdHeaders.contains h))
  if unsupported.isEmpty then Except.ok []
  else
    Except.error ("Unsupported headers: " ++ String.intercalate ", " unsupported ++
      ". Only standard C++ libraries are supported.")

/-- `languageConfigs.c.detectDependencies`. -/
def cDetectDependencies (code : String) : Except String (List String) :=
  let includes := scanG cTryInclude code.data.length code.data
  let unsupported := (includes.map String.mk).filter
    (fun h => !(cStdHeaders.contains h))
  if unsupported.isEmpty then Except.ok []
  else
    Except.error ("Unsupported headers: " ++ String.intercalate ", " unsupported ++
      ". Only standard C libraries are supported.")

/-! ### Path helpers

The service keeps every generated file directly under one temp directory
(`path.join(__dirname, 'temp')`, abbreviated to `"temp"` here).
`getTempFile(ext)` produces `temp/temp_<hex>.<ext>` with 16 random hex
characters; the randomness is supplied by the oracle. -/

/-- `path.dirname`: the text before the last `/` (`"."` when there is no
separator, as in Node for relative one-segment paths). -/
def pathDirname (s : String) : String :=
  if s.data.contains '/' then
    String.mk (((s.data.reverse.dropWhile (fun c => !(c == '/'))).drop 1).reverse)
  else "."

def afterLastSlash (l : List Char) : List Char :=
  (l.reverse.takeWhile (fun c => !(c == '/'))).reverse

/-- Remove `suf` from the end of `l` when it is a suffix. -/
def stripSuffixIf (l suf : List Char) : List Char :=
  if suf.reverse.isPrefixOf l.reverse then (l.reverse.drop suf.length).reverse
  else l

/-- `path.basename(s, ext)`. -/
def pathBasenameExt (s ext : String) : String :=
  String.mk (stripSuffixIf (afterLastSlash s.data) ext.data)

/-- `getTempFile(ext)` given the random hex part. -/
def tempFilePath (r ext : String) : String :=
  "temp/temp_" ++ r ++ "." ++ ext

/-! ### Process execution model

External behaviour is supplied by an `Oracle`: for each command string,
the outcome Node's `exec` callback would deliver (`error`, `stdout`,
`stderr`), plus the random hex parts of the request's temp-file names and
the platform flag (`process.platform === "win32"`). -/

structure ExecOutcome where
  err : Option String
  stdout : String
  stderr : String

structure Oracle where
  run : String → ExecOutcome
  r1 : String
  r2 : String
  win32 : Bool

/-- `executeWithTimeout`: resolves `stdout` on success; on failure rejects
with the string `stderr || stdout || error.message` (JavaScript falsiness
on empty strings).  No stdin is written and no truncation is applied,
exactly as in the source.  The timeout only selects the deadline passed
to `exec` and does not alter the data flow. -/
def executeWithTimeout (o : Oracle) (command : String) (_timeout : Nat) :
    Except String String :=
  match (o.run command).err with
  | none => Except.ok (o.run command).stdout
  | some msg =>
    Except.error (jsOr (o.run command).stderr (jsOr (o.run command).stdout msg))

/-- A JavaScript thrown value: either a plain rejected string (whose
`.message` property is `undefined`) or an `Error` object with a message. -/
inductive Thrown where
  | str (s : String)
  | err (msg : String)
deriving DecidableEq, Repr

/-- `${e.message}` inside a template literal: interpolating `undefined`
prints the text `undefined`. -/
def thrownMessageTemplate : Thrown → String
  | Thrown.str _ => "undefined"
  | Thrown.err m => m

/-- `e.message || fallback`. -/
def thrownMessageOr : Thrown → String → String
  | Thrown.str _, fb => fb
  | Thrown.err m, fb => if m = "" then fb else m

/-! ### Per-language commands -/

def PYTHON_CMD : String := "python3"

def splitOnChar (c : Char) : List Char → List (List Char)
  | [] => [[]]
  | x :: xs =>
    if x = c then [] :: splitOnChar c xs
    else
      match splitOnChar c xs with
      | h :: t => (x :: h) :: t
      | [] => [[x]]

/-- `languageConfigs.java.install`: `pkg.split(":")` destructured into
group/artifact/version; missing parts interpolate as `undefined`. -/
def mvnInstallCmd (pkg : String) : String :=
  let parts := (splitOnChar ':' pkg.data).map String.mk
  "mvn dependency:get -DgroupId=" ++ parts.getD 0 "undefined" ++
    " -DartifactId=" ++ parts.getD 1 "undefined" ++
    " -Dversion=" ++ parts.getD 2 "undefined"

/-- The package-manager command for one dependency; `none` for C/C++
whose `install` throws synchronously without invoking a command. -/
def installCommand (language dep : String) : Option String :=
  if language = "python" then
    some (PYTHON_CMD ++ " -m pip install --user " ++ dep)
  else if language = "javascript" then
    some ("npm install " ++ dep ++ " --save-exact")
  else if language = "java" then some (mvnInstallCmd dep)
  else none

/-- Message of the `Error` thrown by the C/C++ `install` handlers. -/
def cInstallThrowMsg (language : String) : String :=
  if language = "cpp" then "C++ packages are not supported for automatic installation."
  else if language = "c" then "C packages are not supported for automatic installation."
  else ""

/-- JavaScript `String.prototype.replace` with a string pattern: replace
the first occurrence only. -/
def replaceFirst (pat rep : List Char) : List Char → List Char
  | [] => []
  | c :: cs =>
    if pat.isPrefixOf (c :: cs) then rep ++ (c :: cs).drop pat.length
    else c :: replaceFirst pat rep cs

/-- The `-o` target of the C/C++ compile command:
`outputExe || filename.replace(<srcExt>, <exeExt>)`. -/
def ccOutputPath (win32 : Bool) (srcExt : String) (filename : String)
    (outputExe : Option String) : String :=
  match outputExe with
  | some oe => oe
  | none =>
    String.mk (replaceFirst srcExt.data
      (if win32 then ".exe".data else ".out".data) filename.data)

/-- `languageConfigs.cpp.compileCommand`. -/
def compileCommandCpp (win32 : Bool) (filename : String)
    (outputExe : Option String) : String × String :=
  let output := ccOutputPath win32 ".cpp" filename outputExe
  ("g++ -std=c++17 -Wall -Wextra -O2 \"" ++ filename ++ "\" -o \"" ++ output ++
     "\" -pthread",
   if win32 then "\"" ++ output ++ "\"" else "./" ++ output)

/-- `languageConfigs.c.compileCommand`. -/
def compileCommandC (win32 : Bool) (filename : String)
    (outputExe : Option String) : String × String :=
  let output := ccOutputPath win32 ".c" filename outputExe
  ("gcc -Wall -Wextra -std=c11 \"" ++ filename ++ "\" -o \"" ++ output ++
     "\" -lm",
   if win32 then "\"" ++ output ++ "\"" else "./" ++ output)

/-- `languageConfigs.java.compileCommand`. -/
def compileCommandJava (filename : String) : String × String :=
  let className := pathBasenameExt filename ".java"
  ("javac \"" ++ filename ++ "\"",
   "java -cp \"" ++ pathDirname filename ++ "\" " ++ className)

/-- Dispatch used by the non-win32 C/C++ branch of the handler, which
indexes `compileCommand(filename, outputExe)` directly. -/
def ccCompileRun (win32 : Bool) (language filename : String)
    (outputExe : Option String) : String × String :=
  if language = "cpp" then compileCommandCpp win32 filename outputExe
  else compileCommandC win32 filename outputExe

/-- `config.compileCommand`: a single run command for interpreted
languages, a compile/run pair for compiled ones. -/
inductive CmdPlan where
  | single (run : String)
  | pair (compile run : String)

def compileCommand (win32 : Bool) (language filename : String)
    (outputExe : Option String) : CmdPlan :=
  if language = "python" then CmdPlan.single (PYTHON_CMD ++ " \"" ++ filename ++ "\"")
  else if language = "javascript" then CmdPlan.single ("node \"" ++ filename ++ "\"")
  else if language = "java" then
    CmdPlan.pair (compileCommandJava filename).1 (compileCommandJava filename).2
  else if language = "cpp" then
    CmdPlan.pair (compileCommandCpp win32 filename outputExe).1
      (compileCommandCpp win32 filename outputExe).2
  else
    CmdPlan.pair (compileCommandC win32 filename outputExe).1
      (compileCommandC win32 filename outputExe).2

/-- Files the external tools create on a successful compile step: `javac`
places `<Class>.class` next to the source, the C/C++ compilers write the
`-o` target.  (A model of the collaborating toolchain, not of the
JavaScript source itself.) -/
def compiledArtifacts (win32 : Bool) (language filename : String)
    (outputExe : Option String) : List String :=
  if language = "java" then
    [pathDirname filename ++ "/" ++ pathBasenameExt filename ".java" ++ ".class"]
  else if language = "cpp" then [ccOutputPath win32 ".cpp" filename outputExe]
  else if language = "c" then [ccOutputPath win32 ".c" filename outputExe]
  else []

/-! ### `executeCode` -/

/-- `detectDependencies` dispatch inside `executeCode`; the thrown values
of the Java/C/C++ detectors are surfaced as `Except.error`. -/
def detectDependencies (language code : String) : Except String (List String) :=
  if language = "python" then Except.ok (pythonDetectDependencies code)
  else if language = "javascript" then Except.ok (javascriptDetectDependencies code)
  else if language = "java" then javaDetectDependencies code
  else if language = "cpp" then cppDetectDependencies code
  else cDetectDependencies code

structure DepPhaseOut where
  cmds : List (String × Nat)
  errors : List String

/-- The install loop of `executeCode`: every dependency is attempted; a
failure contributes `Failed to install <dep>: <err.message>` — where
`err.message` is the text `undefined` when the rejected value is a plain
string, as it is for `executeWithTimeout` rejections — and the loop
continues. -/
def installLoop (o : Oracle) (language : String) : List String → DepPhaseOut
  | [] => ⟨[], []⟩
  | dep :: rest =>
    let restOut := installLoop o language rest
    match installCommand language dep with
    | some cmd =>
      match executeWithTimeout o cmd 60000 with
      | Except.ok _ => ⟨(cmd, 60000) :: restOut.cmds, restOut.errors⟩
      | Except.error _ =>
        ⟨(cmd, 60000) :: restOut.cmds,
         ("Failed to install " ++ dep ++ ": undefined") :: restOut.errors⟩
    | none =>
      ⟨restOut.cmds,
       ("Failed to install " ++ dep ++ ": " ++ cInstallThrowMsg language) ::
         restOut.errors⟩

/-- The compile-vs-runtime labelling heuristic of `executeCode`'s catch
block, applied to failures of either phase. -/
def compileRunLabel (s : String) : String :=
  if strIncludes s "error:" then "Compilation Error:\n" ++ s
  else "Runtime Error:\n" ++ s

structure ExecCodeOut where
  result : Except Thrown String
  cmds : List (String × Nat)
  made : List String

def validLanguages : List String := ["python", "javascript", "java", "cpp", "c"]

/-- `executeCode(language, code, filename, outputExe)`. -/
def executeCode (o : Oracle) (language code filename : String)
    (outputExe : Option String) : ExecCodeOut :=
  if !(validLanguages.contains language) then
    ⟨Except.error (Thrown.err ("Unsupported language: " ++ language)), [], []⟩
  else
    match detectDependencies language code with
    | Except.error m =>
      ⟨Except.error (Thrown.err ("Dependency Error: " ++ m)), [], []⟩
    | Except.ok deps =>
      let ip := installLoop o language deps
      if !ip.errors.isEmpty then
        ⟨Except.error
           (Thrown.err ("Dependency Error: " ++ String.intercalate "\n" ip.errors)),
         ip.cmds, []⟩
      else
        match compileCommand o.win32 language filename outputExe with
        | CmdPlan.single cmd =>
          match executeWithTimeout o cmd 10000 with
          | Except.ok out => ⟨Except.ok out, ip.cmds ++ [(cmd, 10000)], []⟩
          | Except.error s => ⟨Except.error (Thrown.str s), ip.cmds ++ [(cmd, 10000)], []⟩
        | CmdPlan.pair compileCmd runCmd =>
          match executeWithTimeout o compileCmd 5000 with
          | Except.error s =>
            ⟨Except.error (Thrown.err (compileRunLabel s)),
             ip.cmds ++ [(compileCmd, 5000)], []⟩
          | Except.ok _ =>
            let made := compiledArtifacts o.win32 language filename outputExe
            match executeWithTimeout o runCmd 3000 with
            | Except.ok out =>
              ⟨Except.ok out, ip.cmds ++ [(compileCmd, 5000), (runCmd, 3000)], made⟩
            | Except.error s =>
              ⟨Except.error (Thrown.err (compileRunLabel s)),
               ip.cmds ++ [(compileCmd, 5000), (runCmd, 3000)], made⟩

/-! ### `handleCodeExecution` and the endpoints -/

inductive Response where
  | clientError (status : Nat) (msg : String)
  | output (s : String)
deriving DecidableEq, Repr

/-- The catch block of `handleCodeExecution`:
`res.json({ output: error.message || "An unknown error occurred." })`. -/
def respond : Except Thrown String → Response
  | Except.ok out => Response.output out
  | Except.error t => Response.output (thrownMessageOr t "An unknown error occurred.")

structure HandlerOut where
  response : Response
  cmds : List (String × Nat)
  created : List String
  cleanupList : List String
deriving DecidableEq, Repr

/-- `handleCodeExecution(language, code, res)`.  `created` lists the
temporary files existing at the end of the try block (source file after
any rename, plus compiled artifacts); `cleanupList` is the final
`filesToCleanup` removed by `cleanup` in the `finally` block on every
exit path. -/
def handleCodeExecution (o : Oracle) (language code : String) : HandlerOut :=
  if code = "" then ⟨Response.clientError 400 "No code provided", [], [], []⟩
  else if !(validLanguages.contains language) then
    ⟨Response.clientError 400 ("Unsupported language: " ++ language), [], [], []⟩
  else
    let filename := tempFilePath o.r1 language
    if language = "java" then
      match detectClassName code with
      | none =>
        ⟨Response.output "No public class found in the Java code", [],
         [filename], [filename]⟩
      | some className =>
        let javaFile := pathDirname filename ++ "/" ++ className ++ ".java"
        let classFile := pathDirname javaFile ++ "/" ++ className ++ ".class"
        let ec := executeCode o "java" code javaFile none
        ⟨respond ec.result, ec.cmds, javaFile :: ec.made, [javaFile, classFile]⟩
    else if language = "cpp" || language = "c" then
      let exeExtension := if o.win32 then "exe" else "out"
      let outputExe := tempFilePath o.r2 exeExtension
      if !o.win32 then
        let cc := ccCompileRun o.win32 language filename (some outputExe)
        match executeWithTimeout o cc.1 5000 with
        | Except.error s =>
          ⟨respond (Except.error (Thrown.str s)), [(cc.1, 5000)],
           [filename], [filename, outputExe]⟩
        | Except.ok _ =>
          let chmodCmd := "chmod +x \"" ++ outputExe ++ "\""
          match executeWithTimeout o chmodCmd 1000 with
          | Except.error s =>
            ⟨respond (Except.error (Thrown.str s)), [(cc.1, 5000), (chmodCmd, 1000)],
             [filename, outputExe], [filename, outputExe]⟩
          | Except.ok _ =>
            match executeWithTimeout o cc.2 3000 with
            | Except.ok out =>
              ⟨Response.output out,
               [(cc.1, 5000), (chmodCmd, 1000), (cc.2, 3000)],
               [filename, outputExe], [filename, outputExe]⟩
            | Except.error s =>
              ⟨respond (Except.error (Thrown.str s)),
               [(cc.1, 5000), (chmodCmd, 1000), (cc.2, 3000)],
               [filename, outputExe], [filename, outputExe]⟩
      else
        let ec := executeCode o language code filename (some outputExe)
        ⟨respond ec.result, ec.cmds, filename :: ec.made, [filename]⟩
    else
      let ec := executeCode o language code filename none
      ⟨respond ec.result, ec.cmds, [filename], [filename]⟩

/-- The transport request body: the endpoints receive
`{ code: string, input?: string }` (absent fields read as empty). -/
structure ReqBody where
  code : String
  input : String
deriving DecidableEq, Repr

/-- One of the five `app.post("/run-<language>")` endpoints: each passes
only `req.body.code` to `handleCodeExecution`. -/
def runEndpoint (o : Oracle) (language : String) (body : ReqBody) : HandlerOut :=
  handleCodeExecution o language body.code

def Response.isOutput : Response → Bool
  | Response.output _ => true
  | Response.clientError _ _ => false

def isErrorB : Except String String → Bool
  | Except.error _ => true
  | Except.ok _ => false

/-- The concrete package-manager command string for the languages with an
install path. -/
def installCmdStr (language dep : String) : String :=
  (installCommand language dep).getD ""

/-! ### Concrete oracles used by witnesses and counterexamples -/

/-- Every external command succeeds with stdout `"ran"`; non-Windows. -/
def oracleAllOk : Oracle :=
  ⟨fun _ => ⟨none, "ran", ""⟩, "aa", "bb", false⟩

/-- Every external command succeeds with stdout `"ran"`; Windows. -/
def oracleAllOkWin : Oracle :=
  ⟨fun _ => ⟨none, "ran", ""⟩, "aa", "bb", true⟩

/-- `javac` succeeds but running the compiled class `A` fails with a
stderr that contains the compiler-diagnostic marker `error:`. -/
def oracleRunFails : Oracle :=
  ⟨fun cmd =>
    if cmd = "java -cp \"temp\" A" then ⟨some "exit 1", "", "error: oops"⟩
    else ⟨none, "", ""⟩,
   "aa", "bb", false⟩

/-- A 6000-character output, above the 5000-byte ceiling named by the
specification. -/
def longText : String := String.mk (List.replicate 6000 'a')

/-- The spawned command succeeds and produces `longText` on stdout. -/
def oracleLongOut : Oracle :=
  ⟨fun _ => ⟨none, longText, ""⟩, "aa", "bb", false⟩

/-- The spawned command exits 0 with empty stdout and non-empty stderr. -/
def oracleStderrOnly : Oracle :=
  ⟨fun _ => ⟨none, "", "boom"⟩, "aa", "bb", false⟩

/-- Every package-manager invocation fails. -/
def oraclePipFails : Oracle :=
  ⟨fun _ => ⟨some "fail", "", "pip broke"⟩, "aa", "bb", false⟩

/-! ### Helper lemmas -/

theorem mem_jsSetDedupAux {y : String} :
    ∀ (fuel : Nat) (l : List String), y ∈ jsSetDedupAux fuel l → y ∈ l
  | 0, _, h => by simp [jsSetDedupAux] at h
  | _ + 1, [], h => by simp [jsSetDedupAux] at h
  | fuel + 1, x :: xs, h => by
    rw [jsSetDedupAux] at h
    rcases List.mem_cons.mp h with h | h
    · exact h ▸ List.mem_cons_self _ _
    · exact List.mem_cons_of_mem _
        (List.mem_of_mem_filter (mem_jsSetDedupAux fuel _ h))

theorem jsSetDedupAux_nodup :
    ∀ (fuel : Nat) (l : List String), (jsSetDedupAux fuel l).Nodup
  | 0, _ => by simp [jsSetDedupAux]
  | _ + 1, [] => by simp [jsSetDedupAux]
  | fuel + 1, x :: xs => by
    rw [jsSetDedupAux]
    refine List.nodup_cons.mpr ⟨fun hmem => ?_, jsSetDedupAux_nodup fuel _⟩
    have hx := mem_jsSetDedupAux fuel _ hmem
    have := List.of_mem_filter hx
    simp at this

theorem jsSetDedup_nodup (l : List String) : (jsSetDedup l).Nodup :=
  jsSetDedupAux_nodup _ _

theorem mem_takeWhile_sat {p : Char → Bool} {c : Char} :
    ∀ {l : List Char}, c ∈ l.takeWhile p → p c
  | [], h => by simp [List.takeWhile] at h
  | x :: xs, h => by
    by_cases hp : p x
    · rw [List.takeWhile_cons, if_pos hp] at h
      rcases List.mem_cons.mp h with h | h
      · exact h ▸ hp
      · exact mem_takeWhile_sat h
    · rw [List.takeWhile_cons, if_neg hp] at h
      exact absurd h (List.not_mem_nil c)

/-! ### Claim theorems -/

/-- C1: on a non-Windows platform, a C request whose source includes the
non-allowlisted header `evil.h` is compiled and run without any header
check: the handler's very first command is the `gcc` compile command, the
request completes with the program's output, and no `DependencyError` is
produced — even though `languageConfigs.c.detectDependencies`, had it
been invoked, rejects exactly this header.  This exhibits the failing
input of the code bug: the non-win32 C/C++ branch of
`handleCodeExecution` bypasses `executeCode` and with it the
documented strict header enforcement. -/
theorem c1_compile_attempted_without_header_check :
    (handleCodeExecution oracleAllOk "c" "#include <evil.h>\nint main(void)").cmds =
      [("gcc -Wall -Wextra -std=c11 \"temp/temp_aa.c\" -o \"temp/temp_bb.out\" -lm",
         5000),
       ("chmod +x \"temp/temp_bb.out\"", 1000),
       ("./temp/temp_bb.out", 3000)] ∧
    (handleCodeExecution oracleAllOk "c" "#include <evil.h>\nint main(void)").response =
      Response.output "ran" ∧
    cDetectDependencies "#include <evil.h>\nint main(void)" =
      Except.error
        "Unsupported headers: evil.h. Only standard C libraries are supported." :=
  ⟨rfl, rfl, rfl⟩

/-- C2 counterexample: on Windows, a successful C++ execution creates the
compiled executable (`temp/temp_bb.exe`) but that file is never added to
`filesToCleanup`, so it survives the request — refuting the claim that
every temporary file is removed on every exit path. -/
theorem c2_counterexample_exe_leaks_on_win32 :
    "temp/temp_bb.exe" ∈
      (handleCodeExecution oracleAllOkWin "cpp" "int main(void)").created ∧
    "temp/temp_bb.exe" ∉
      (handleCodeExecution oracleAllOkWin "cpp" "int main(void)").cleanupList := by
  decide

/-- C4 counterexample: Java source declaring a non-public class (so a
`class` declaration exists but no `public class`) is not renamed to any
class name and no `Main.java` fallback is produced; instead
`detectClassName` throws and the handler answers with the error text —
refuting both the fall-back-to-any-class and the default-`Main` parts of
the claim. -/
theorem c4_counterexample_no_main_fallback :
    (handleCodeExecution oracleAllOk "java" "class Foo").response =
      Response.output "No public class found in the Java code" ∧
    "temp/Main.java" ∉ (handleCodeExecution oracleAllOk "java" "class Foo").created ∧
    (handleCodeExecution oracleAllOk "java" "class Foo").cmds = [] :=
  ⟨rfl, by decide, rfl⟩

/-- C5 counterexample: a Java execution whose compile command succeeds
and whose run command fails with stderr containing `error:` is labelled
`Compilation Error` — refuting the claim that a CompileError is reported
only for failures of the compile phase. -/
theorem c5_counterexample_run_failure_labelled_compile :
    (oracleRunFails.run "javac \"temp/A.java\"").err = none ∧
    (oracleRunFails.run "java -cp \"temp\" A").err = some "exit 1" ∧
    (handleCodeExecution oracleRunFails "java" "public class A").response =
      Response.output "Compilation Error:\nerror: oops" :=
  ⟨rfl, rfl, rfl⟩

/-- C6 counterexample: a 6000-character stdout — beyond the claimed
5000-byte ceiling — is returned by `executeWithTimeout` verbatim, with
no truncation and no truncation marker appended. -/
theorem c6_counterexample_no_truncation :
    executeWithTimeout oracleLongOut "cmd" 3000 = Except.ok longText ∧
    5000 < longText.length := by
  refine ⟨rfl, ?_⟩
  have h : longText.length = 6000 := by
    show (List.replicate 6000 'a').length = 6000
    exact List.length_replicate 6000 'a'
  rw [h]
  norm_num

/-- C7 counterexample: two requests with identical `code` but different
`input` fields ("42" versus absent) produce identical results in every
observable component (response, spawned commands, files): the endpoints
never read `input` and no stdin is ever written. -/
theorem c7_counterexample_input_ignored :
    runEndpoint oracleAllOk "python" ⟨"print(input())", "42"⟩ =
      runEndpoint oracleAllOk "python" ⟨"print(input())", ""⟩ :=
  rfl

/-- C8 counterexample: a run that exits 0 with empty stdout and stderr
`"boom"` resolves to the empty string, not to the captured stderr —
refuting the claimed fallback to stderr when stdout is empty. -/
theorem c8_counterexample_no_stderr_fallback :
    (oracleStderrOnly.run "x").stdout = "" ∧
    (oracleStderrOnly.run "x").stderr = "boom" ∧
    executeWithTimeout oracleStderrOnly "x" 3000 = Except.ok "" ∧
    executeWithTimeout oracleStderrOnly "x" 3000 ≠ Except.ok "boom" := by
  refine ⟨rfl, rfl, rfl, fun h => ?_⟩
  rw [show executeWithTimeout oracleStderrOnly "x" 3000 = Except.ok "" from rfl] at h
  exact absurd (Except.ok.inj h) (by decide)

/-- C10 counterexample: Python detection is order-dependent — the two
sources below contain the same two imports in opposite orders yet detect
to different sets (`["numpy"]` versus `[]`), because the first match's
trailing class swallows the following import line; and Java detection
returns a list with duplicates. -/
theorem c10_counterexample_order_and_duplicates :
    pythonDetectDependencies "import numpy\nimport os" = ["numpy"] ∧
    pythonDetectDependencies "import os\nimport numpy" = [] ∧
    javaDetectDependencies "import com.a.X;\nimport com.b.Y;" =
      Except.ok ["com", "com"] ∧
    ¬ (["com", "com"] : List String).Nodup :=
  ⟨rfl, rfl, rfl, by decide⟩

theorem executeWithTimeout_of_err_none {o : Oracle} {cmd : String} {t : Nat}
    (h : (o.run cmd).err = none) :
    executeWithTimeout o cmd t = Except.ok ((o.run cmd).stdout) := by
  unfold executeWithTimeout
  rw [h]

/-- `executeCode` for a Python request with no detected dependencies and a
successful interpreter run: the result is the interpreter's stdout. -/
theorem executeCode_python_ok (o : Oracle) (code filename : String)
    (oe : Option String) (hdeps : pythonDetectDependencies code = [])
    (hok : (o.run (PYTHON_CMD ++ " \"" ++ filename ++ "\"")).err = none) :
    (executeCode o "python" code filename oe).result =
      Except.ok ((o.run (PYTHON_CMD ++ " \"" ++ filename ++ "\"")).stdout) := by
  have h0 : (validLanguages.contains "python") = true := by decide
  have h1 : detectDependencies "python" code = Except.ok [] := by
    unfold detectDependencies
    rw [if_pos rfl, hdeps]
  have h3 : compileCommand o.win32 "python" filename oe =
      CmdPlan.single (PYTHON_CMD ++ " \"" ++ filename ++ "\"") := by
    unfold compileCommand
    rw [if_pos rfl]
  have h2 := executeWithTimeout_of_err_none (t := 10000) hok
  simp only [executeCode, h0, Bool.not_true, Bool.false_eq_true, if_false, h1,
    h3, h2, installLoop, List.isEmpty_nil]

theorem respond_isOutput (e : Except Thrown String) : (respond e).isOutput = true := by
  cases e with
  | ok out => rfl
  | error t => rfl

/-- C3: every accepted request — non-empty code, supported language —
produces a response of the uniform shape `{ output: <text> }`, whatever
the oracle makes of dependency resolution, compilation or the run phase;
no error envelope and no exception reaches the transport layer. -/
theorem c3_failures_surfaced_as_output (o : Oracle) (language code : String)
    (hcode : code ≠ "") (hlang : validLanguages.contains language = true) :
    (handleCodeExecution o language code).response.isOutput = true := by
  unfold handleCodeExecution
  rw [if_neg hcode, if_neg (by rw [hlang]; decide)]
  repeat first
    | exact respond_isOutput _
    | rfl
    | split
    | simp only []

/-- Witness for C3 at a concrete request. -/
theorem c3_witness :
    (handleCodeExecution oracleAllOk "python" "x").response.isOutput = true :=
  c3_failures_surfaced_as_output oracleAllOk "python" "x" (by decide) (by decide)

/-- C4 amended: the Java basename comes from a `public class` declaration
only; when the source has none, `detectClassName` throws, the handler
catches the error and replies `{ output: "No public class found in the
Java code" }` without renaming the file, running no command — and the
orchestrator does not crash. -/
theorem c4_amended_no_public_class (o : Oracle) (code : String)
    (hcode : code ≠ "") (hnone : detectClassName code = none) :
    (handleCodeExecution o "java" code).response =
      Response.output "No public class found in the Java code" ∧
    (handleCodeExecution o "java" code).cmds = [] := by
  unfold handleCodeExecution
  rw [if_neg hcode, if_neg (by decide), if_pos rfl, hnone]
  exact ⟨rfl, rfl⟩

/-- Witness for C4 amended. -/
theorem c4_amended_witness :
    (handleCodeExecution oracleAllOk "java" "class Bar").response =
      Response.output "No public class found in the Java code" ∧
    (handleCodeExecution oracleAllOk "java" "class Bar").cmds = [] :=
  c4_amended_no_public_class oracleAllOk "class Bar" (by decide) (by decide)

/-- C5 amended: for executions routed through `executeCode`'s compiled
branch (Java on every platform, C/C++ on Windows), a failure of either
the compile phase or the run phase is labelled `Compilation Error` iff
the captured error text contains the substring `error:`, and `Runtime
Error` otherwise — so run-phase failures can be labelled as compilation
errors. -/
theorem c5_amended_label_by_substring (o : Oracle)
    (language code filename : String) (outputExe : Option String)
    (deps : List String) (compileCmd runCmd e : String)
    (hlang : validLanguages.contains language = true)
    (hdet : detectDependencies language code = Except.ok deps)
    (hinst : (installLoop o language deps).errors = [])
    (hplan : compileCommand o.win32 language filename outputExe =
      CmdPlan.pair compileCmd runCmd)
    (hfail : executeWithTimeout o compileCmd 5000 = Except.error e ∨
      ((∃ out, executeWithTimeout o compileCmd 5000 = Except.ok out) ∧
        executeWithTimeout o runCmd 3000 = Except.error e)) :
    (executeCode o language code filename outputExe).result =
      Except.error (Thrown.err (if strIncludes e "error:" then
        "Compilation Error:\n" ++ e else "Runtime Error:\n" ++ e)) := by
  rcases hfail with h | ⟨⟨out, hok⟩, hrun⟩
  · simp only [executeCode, hlang, Bool.not_true, Bool.false_eq_true, if_false,
      hdet, hinst, List.isEmpty_nil, hplan, h, compileRunLabel]
  · simp only [executeCode, hlang, Bool.not_true, Bool.false_eq_true, if_false,
      hdet, hinst, List.isEmpty_nil, hplan, hok, hrun, compileRunLabel]

/-- Witness for C5 amended: the run phase fails with a text containing
`error:`, and the result is labelled a compilation error. -/
theorem c5_amended_witness :
    (executeCode oracleRunFails "java" "public class A" "temp/A.java" none).result =
      Except.error (Thrown.err (if strIncludes "error: oops" "error:" then
        "Compilation Error:\n" ++ "error: oops" else
        "Runtime Error:\n" ++ "error: oops")) :=
  c5_amended_label_by_substring oracleRunFails "java" "public class A"
    "temp/A.java" none [] "javac \"temp/A.java\"" "java -cp \"temp\" A"
    "error: oops" (by decide) rfl rfl rfl
    (Or.inr ⟨⟨"", rfl⟩, rfl⟩)

/-- C6 amended: `executeWithTimeout` captures the streams and returns the
successful stdout verbatim at any size — output beyond the 5000-byte
ceiling named by the claim is neither truncated nor marked. -/
theorem c6_amended_no_truncation (o : Oracle) (cmd : String) (t : Nat)
    (hok : (o.run cmd).err = none) (hbig : 5000 < (o.run cmd).stdout.length) :
    ∃ s, executeWithTimeout o cmd t = Except.ok s ∧ 5000 < s.length ∧
      s = (o.run cmd).stdout := by
  refine ⟨(o.run cmd).stdout, ?_, hbig, rfl⟩
  unfold executeWithTimeout
  rw [hok]

/-- Witness for C6 amended. -/
theorem c6_amended_witness :
    ∃ s, executeWithTimeout oracleLongOut "cmd" 3000 = Except.ok s ∧
      5000 < s.length ∧ s = (oracleLongOut.run "cmd").stdout :=
  c6_amended_no_truncation oracleLongOut "cmd" 3000 rfl
    (by
      have h : (oracleLongOut.run "cmd").stdout.length = 6000 := by
        show (List.replicate 6000 'a').length = 6000
        exact List.length_replicate 6000 'a'
      rw [h]; norm_num)

/-- C7 amended: the endpoints read only `body.code`; the optional `input`
field is ignored, and no stdin is ever written to a spawned process —
two requests agreeing on `code` produce identical responses, commands
and file effects. -/
theorem c7_amended_input_never_used (o : Oracle) (language : String)
    (b1 b2 : ReqBody) (h : b1.code = b2.code) :
    runEndpoint o language b1 = runEndpoint o language b2 := by
  unfold runEndpoint
  rw [h]

/-- Witness for C7 amended. -/
theorem c7_amended_witness :
    runEndpoint oracleAllOk "javascript" ⟨"42", "stdin text"⟩ =
      runEndpoint oracleAllOk "javascript" ⟨"42", ""⟩ :=
  c7_amended_input_never_used oracleAllOk "javascript" ⟨"42", "stdin text"⟩
    ⟨"42", ""⟩ rfl

/-- C8 amended: when the run command exits 0, the response is the
captured stdout unconditionally — even when stdout is empty and stderr
is not; the stderr-then-stdout fallback exists only on the failure
path.  Stated end-to-end for a Python request without dependencies. -/
theorem c8_amended_stdout_only (o : Oracle) (code : String) (hcode : code ≠ "")
    (hdeps : pythonDetectDependencies code = [])
    (hok : (o.run (PYTHON_CMD ++ " \"" ++ tempFilePath o.r1 "python" ++ "\"")).err =
      none) :
    (handleCodeExecution o "python" code).response =
      Response.output
        ((o.run (PYTHON_CMD ++ " \"" ++ tempFilePath o.r1 "python" ++ "\"")).stdout) := by
  unfold handleCodeExecution
  rw [if_neg hcode, if_neg (by decide), if_neg (by decide), if_neg (by decide)]
  show respond (executeCode o "python" code (tempFilePath o.r1 "python") none).result = _
  rw [executeCode_python_ok o code _ none hdeps hok]
  rfl

/-- Witness for C8 amended at the stderr-only oracle: the response is the
empty stdout, not the non-empty stderr. -/
theorem c8_amended_witness :
    (handleCodeExecution oracleStderrOnly "python" "x").response =
      Response.output
        ((oracleStderrOnly.run
          (PYTHON_CMD ++ " \"" ++ tempFilePath oracleStderrOnly.r1 "python" ++ "\"")).stdout) :=
  c8_amended_stdout_only oracleStderrOnly "x" (by decide) rfl rfl

theorem takeWhile_append_all {p : Char → Bool} :
    ∀ (xs : List Char) {y : Char} (ys : List Char),
      (∀ x ∈ xs, p x = true) → p y = false →
      (xs ++ y :: ys).takeWhile p = xs
  | [], _, ys, _, hy => by simp [List.takeWhile_cons, hy]
  | x :: xs, y, ys, hxs, hy => by
    have hx : p x = true := hxs x (List.mem_cons_self x xs)
    have ih := takeWhile_append_all xs ys
      (fun a ha => hxs a (List.mem_cons_of_mem x ha)) hy
    simp [List.cons_append, List.takeWhile_cons, hx, ih]

theorem isPrefixOf_append_self : ∀ (a b : List Char), a.isPrefixOf (a ++ b) = true
  | [], b => by cases b <;> rfl
  | x :: a, b => by simp [List.isPrefixOf, isPrefixOf_append_self a b]

theorem afterLastSlash_append (D T : List Char)
    (hT : ∀ c ∈ T, (!(c == '/')) = true) :
    afterLastSlash (D ++ '/' :: T) = T := by
  unfold afterLastSlash
  have hrev : (D ++ '/' :: T).reverse = T.reverse ++ '/' :: D.reverse := by
    rw [List.reverse_append, List.reverse_cons, List.append_assoc]
    rfl
  rw [hrev,
    takeWhile_append_all T.reverse D.reverse
      (fun c hc => hT c (List.mem_reverse.mp hc)) (by decide),
    List.reverse_reverse]

theorem stripSuffixIf_append (a b : List Char) : stripSuffixIf (a ++ b) b = a := by
  unfold stripSuffixIf
  rw [List.reverse_append, if_pos (isPrefixOf_append_self b.reverse a.reverse),
    show b.length = b.reverse.length from (List.length_reverse b).symm,
    List.drop_left, List.reverse_reverse]

theorem string_data_append (a b : String) : (a ++ b).data = a.data ++ b.data := by
  cases a
  cases b
  rfl

theorem javaTryClass_chars {l cap : List Char} (h : javaTryClass l = some cap) :
    ∀ c ∈ cap, isWordChar c = true := by
  unfold javaTryClass at h
  cases h1 : dropLit "public".data l with
  | none => rw [h1] at h; simp at h
  | some r1 =>
    rw [h1] at h
    simp only [] at h
    by_cases hw1 : (spanRun isSpaceChar r1).1.isEmpty = true
    · rw [if_pos hw1] at h; simp at h
    · rw [if_neg hw1] at h
      cases h2 : dropLit "class".data (spanRun isSpaceChar r1).2 with
      | none => rw [h2] at h; simp at h
      | some r3 =>
        rw [h2] at h
        simp only [] at h
        by_cases hw2 : (spanRun isSpaceChar r3).1.isEmpty = true
        · rw [if_pos hw2] at h; simp at h
        · rw [if_neg hw2] at h
          by_cases hcap :
              (spanRun isWordChar (spanRun isSpaceChar r3).2).1.isEmpty = true
          · rw [if_pos hcap] at h; simp at h
          · rw [if_neg hcap] at h
            have h3 : (spanRun isWordChar (spanRun isSpaceChar r3).2).1 = cap := by
              injection h
            subst h3
            exact fun c hc => mem_takeWhile_sat hc

theorem scanFirst_javaTryClass_chars :
    ∀ (l : List Char) {cap : List Char},
      scanFirst javaTryClass l = some cap → ∀ c ∈ cap, isWordChar c = true
  | [], cap, h => by simp [scanFirst] at h
  | x :: rest, cap, h => by
    rw [scanFirst] at h
    cases h1 : javaTryClass (x :: rest) with
    | some cap2 =>
      rw [h1] at h
      have h2 : cap2 = cap := by injection h
      exact h2 ▸ javaTryClass_chars h1
    | none =>
      rw [h1] at h
      exact scanFirst_javaTryClass_chars rest h

theorem detectClassName_chars {code cn : String}
    (h : detectClassName code = some cn) : ∀ c ∈ cn.data, isWordChar c = true := by
  unfold detectClassName at h
  cases h1 : scanFirst javaTryClass code.data with
  | none => rw [h1] at h; exact absurd h (by simp)
  | some cap =>
    rw [h1] at h
    have h2 : String.mk cap = cn := by injection h
    subst h2
    exact fun c hc => scanFirst_javaTryClass_chars code.data h1 c hc

theorem wordChar_not_slash {c : Char} (h : isWordChar c = true) :
    (!(c == '/')) = true := by
  by_cases hc : c = '/'
  · subst hc
    exact absurd h (by decide)
  · simp [hc]

/-- On every exit path, `executeCode` either created no compiled artifact
(it failed before or during the compile step) or exactly the artifacts of
a successful compile. -/
theorem executeCode_made (o : Oracle) (language code filename : String)
    (oe : Option String) :
    (executeCode o language code filename oe).made = [] ∨
    (executeCode o language code filename oe).made =
      compiledArtifacts o.win32 language filename oe := by
  unfold executeCode
  repeat first
    | (left; rfl)
    | (right; rfl)
    | split
    | simp only []

/-- C2 amended: the `finally` cleanup removes every file in the final
`filesToCleanup` list on every exit path, and on non-Windows platforms
every temporary file created during the request (source file, renamed
Java file, compiled class file, executable) is in that list; on Windows
the C/C++ output executable is created but never tracked for cleanup. -/
theorem c2_amended_cleanup_covers_created (o : Oracle) (language code : String)
    (hwin : o.win32 = false) :
    ∀ f ∈ (handleCodeExecution o language code).created,
      f ∈ (handleCodeExecution o language code).cleanupList := by
  unfold handleCodeExecution
  by_cases hcode : code = ""
  · rw [if_pos hcode]
    intro f hf
    exact absurd hf (List.not_mem_nil f)
  rw [if_neg hcode]
  by_cases hval : (!(validLanguages.contains language)) = true
  · rw [if_pos hval]
    intro f hf
    exact absurd hf (List.not_mem_nil f)
  rw [if_neg hval]
  by_cases hjava : language = "java"
  · subst hjava
    rw [if_pos rfl]
    cases hdc : detectClassName code with
    | none =>
      intro f hf
      exact hf
    | some cn =>
      intro f hf
      have hbase : pathBasenameExt
          (pathDirname (tempFilePath o.r1 "java") ++ "/" ++ cn ++ ".java")
          ".java" = cn := by
        unfold pathBasenameExt
        have hdata : (pathDirname (tempFilePath o.r1 "java") ++ "/" ++ cn ++
            ".java").data =
            (pathDirname (tempFilePath o.r1 "java")).data ++ '/' ::
              (cn.data ++ ".java".data) := by
          rw [string_data_append, string_data_append, string_data_append]
          simp [List.append_assoc]
        have hnos : ∀ c ∈ cn.data ++ ".java".data, (!(c == '/')) = true := by
          intro c hc
          rcases List.mem_append.mp hc with hc | hc
          · exact wordChar_not_slash (detectClassName_chars hdc c hc)
          · have hj : ∀ c ∈ ".java".data, (!(c == '/')) = true := by decide
            exact hj c hc
        rw [hdata, afterLastSlash_append _ _ hnos, stripSuffixIf_append]
      have hart : compiledArtifacts o.win32 "java"
          (pathDirname (tempFilePath o.r1 "java") ++ "/" ++ cn ++ ".java") none =
          [pathDirname (pathDirname (tempFilePath o.r1 "java") ++ "/" ++ cn ++
            ".java") ++ "/" ++ cn ++ ".class"] := by
        unfold compiledArtifacts
        rw [if_pos rfl, hbase]
      have hf2 : f ∈ (pathDirname (tempFilePath o.r1 "java") ++ "/" ++ cn ++
          ".java") ::
          (executeCode o "java" code
            (pathDirname (tempFilePath o.r1 "java") ++ "/" ++ cn ++ ".java")
            none).made := hf
      show f ∈ [pathDirname (tempFilePath o.r1 "java") ++ "/" ++ cn ++ ".java",
        pathDirname (pathDirname (tempFilePath o.r1 "java") ++ "/" ++ cn ++
          ".java") ++ "/" ++ cn ++ ".class"]
      rcases List.mem_cons.mp hf2 with rfl | hf3
      · exact List.mem_cons_self _ _
      · rcases executeCode_made o "java" code
            (pathDirname (tempFilePath o.r1 "java") ++ "/" ++ cn ++ ".java")
            none with hm | hm
        · rw [hm] at hf3
          exact absurd hf3 (List.not_mem_nil f)
        · rw [hm, hart] at hf3
          rw [List.mem_singleton] at hf3
          subst hf3
          exact List.mem_cons_of_mem _ (List.mem_cons_self _ _)
  rw [if_neg hjava]
  by_cases hcc : (decide (language = "cpp") || decide (language = "c")) = true
  · rw [if_pos hcc, hwin]
    repeat first
      | (intro f hf; simp only [List.mem_cons] at hf ⊢; tauto)
      | split
      | simp only []
  · rw [if_neg hcc]
    intro f hf
    exact hf

/-- Witness for C2 amended: on the non-Windows all-success oracle, the
created Python source file is in the cleanup list. -/
theorem c2_amended_witness :
    "temp/temp_aa.python" ∈
      (handleCodeExecution oracleAllOk "python" "print").cleanupList :=
  c2_amended_cleanup_covers_created oracleAllOk "python" "print" rfl
    "temp/temp_aa.python" (by decide)

theorem installCommand_eq (language : String)
    (h : language = "python" ∨ language = "javascript" ∨ language = "java")
    (d : String) :
    installCommand language d = some (installCmdStr language d) := by
  rcases h with h | h | h <;> subst h <;> rfl

/-- The install loop runs the package-manager command for every
dependency in order, and collects exactly the failures' messages. -/
theorem installLoop_spec (o : Oracle) (language : String)
    (hcmd : ∀ d, installCommand language d = some (installCmdStr language d)) :
    ∀ deps : List String,
      (installLoop o language deps).cmds =
        deps.map (fun d => (installCmdStr language d, 60000)) ∧
      (installLoop o language deps).errors =
        (deps.filter (fun d =>
          isErrorB (executeWithTimeout o (installCmdStr language d) 60000))).map
          (fun d => "Failed to install " ++ d ++ ": undefined")
  | [] => ⟨rfl, rfl⟩
  | dep :: rest => by
    obtain ⟨ih1, ih2⟩ := installLoop_spec o language hcmd rest
    unfold installLoop
    rw [hcmd dep]
    simp only []
    cases hres : executeWithTimeout o (installCmdStr language dep) 60000 with
    | ok out =>
      refine ⟨?_, ?_⟩
      · simp only [List.map_cons, ih1]
      · simp only [List.filter_cons, hres, isErrorB, ih2, Bool.false_eq_true,
          if_false]
    | error s =>
      refine ⟨?_, ?_⟩
      · simp only [List.map_cons, ih1]
      · simp only [List.filter_cons, hres, isErrorB, ih2, if_true, List.map_cons]

/-- C9: for a Python, JavaScript or Java request whose dependency
detection yields `deps`, the install command of every dependency is
executed (the command trace begins with one package-manager invocation
per dependency, in order, even when some fail), and when at least one
install fails the result is a single `Dependency Error` whose message
joins all collected per-dependency failures. -/
theorem c9_installs_attempted_and_aggregated (o : Oracle)
    (language code filename : String) (outputExe : Option String)
    (deps : List String)
    (hlang3 : language = "python" ∨ language = "javascript" ∨ language = "java")
    (hdet : detectDependencies language code = Except.ok deps) :
    (∃ rest, (executeCode o language code filename outputExe).cmds =
      deps.map (fun d => (installCmdStr language d, 60000)) ++ rest) ∧
    ((deps.filter (fun d =>
        isErrorB (executeWithTimeout o (installCmdStr language d) 60000))) ≠ [] →
      (executeCode o language code filename outputExe).result =
        Except.error (Thrown.err ("Dependency Error: " ++ String.intercalate "\n"
          ((deps.filter (fun d =>
            isErrorB (executeWithTimeout o (installCmdStr language d) 60000))).map
            (fun d => "Failed to install " ++ d ++ ": undefined"))))) := by
  have hcontains : validLanguages.contains language = true := by
    rcases hlang3 with h | h | h <;> subst h <;> decide
  obtain ⟨hc, he⟩ := installLoop_spec o language (installCommand_eq language hlang3) deps
  unfold executeCode
  rw [if_neg (by rw [hcontains]; decide), hdet]
  simp only []
  by_cases hf : (deps.filter (fun d =>
      isErrorB (executeWithTimeout o (installCmdStr language d) 60000))) = []
  · rw [if_neg (by rw [he, hf]; decide)]
    refine ⟨?_, fun hne => absurd hf hne⟩
    repeat first
      | exact ⟨_, by rw [hc]⟩
      | split
      | simp only []
  · have hcond : (!((installLoop o language deps).errors.isEmpty)) = true := by
      rw [he]
      cases hfil : (deps.filter (fun d =>
          isErrorB (executeWithTimeout o (installCmdStr language d) 60000))) with
      | nil => exact absurd hfil hf
      | cons a l => rfl
    rw [if_pos hcond]
    refine ⟨⟨[], by rw [hc, List.append_nil]⟩, fun _ => ?_⟩
    rw [he]

/-- Witness for C9: a Python request importing `numpy` under an oracle
whose pip invocation fails yields the aggregated dependency error. -/
theorem c9_witness :
    (∃ rest, (executeCode oraclePipFails "python" "import numpy" "f" none).cmds =
      (pythonDetectDependencies "import numpy").map
        (fun d => (installCmdStr "python" d, 60000)) ++ rest) ∧
    (executeCode oraclePipFails "python" "import numpy" "f" none).result =
      Except.error (Thrown.err ("Dependency Error: " ++ String.intercalate "\n"
        (((pythonDetectDependencies "import numpy").filter (fun d =>
          isErrorB (executeWithTimeout oraclePipFails
            (installCmdStr "python" d) 60000))).map
          (fun d => "Failed to install " ++ d ++ ": undefined")))) := by
  have h := c9_installs_attempted_and_aggregated oraclePipFails "python"
    "import numpy" "f" none (pythonDetectDependencies "import numpy")
    (Or.inl rfl) rfl
  exact ⟨h.1, h.2 (by decide)⟩

/-- C10 amended: dependency detection is a pure function of the source
(hence idempotent), and the Python and JavaScript detectors return
duplicate-free lists (both end in `[...new Set(...)]`); order
independence and Java duplicate-freedom do not hold. -/
theorem c10_amended_detection_nodup (code : String) :
    (pythonDetectDependencies code).Nodup ∧
    (javascriptDetectDependencies code).Nodup := by
  constructor
  · exact (jsSetDedup_nodup _).filter _
  · exact jsSetDedup_nodup _

end CollabRunner
